import Mathlib

/-!
Shallow embedding of the `Updater/http` client-pool package (`src/pool.go`).

A pool caches one HTTP client per timeout value.  Durations (`time.Duration`)
are 64-bit nanosecond counts; no arithmetic is ever performed on them here
(they are only compared and stored), so `Int` is a faithful model.  Object
identity of Go heap pointers (`*http.Client`, custom `http.RoundTripper`
values, `*tls.Config` values) is modelled by tagging each constructed client
with a fresh natural number drawn from an allocation counter carried in the
pool state, and by representing opaque external objects as numbered tokens.
-/

namespace UpdaterHttp

/-- One second in nanoseconds (`time.Second`). -/
def second : Int := 1000000000

/-- An opaque `*tls.Config` value, identified by a token. -/
structure TLSConfig where
  id : Nat
deriving DecidableEq, Repr

/-- The `net.Dialer` settings used when `pool.GetClient` builds the default
transport: `Timeout` and `KeepAlive`, in nanoseconds. -/
structure DialerConfig where
  timeout : Int
  keepAlive : Int
deriving DecidableEq, Repr

/-- An `http.RoundTripper`: either an opaque caller-supplied transport
(identified by a token) or the `&http.Transport{...}` literal that
`pool.GetClient` builds when no custom transport is set, with its
configuration fields recorded. -/
inductive RoundTripper where
  | custom (id : Nat)
  | defaultTransport (proxyFromEnvironment : Bool) (tlsClientConfig : Option TLSConfig)
      (dial : DialerConfig) (tlsHandshakeTimeout : Int)
deriving DecidableEq, Repr

/-- An `*http.Client` as constructed by `pool.GetClient`: the `Transport` and
`Timeout` fields from the `&http.Client{...}` literal, plus the allocation
token `id` standing for the pointer identity of this heap object. -/
structure Client where
  id : Nat
  Transport : RoundTripper
  Timeout : Int
deriving DecidableEq, Repr

/-- The `pool` struct from `src/pool.go`: the shared `transport` (Go `nil`
is `none`), the default `tlsConfig` (Go `nil` is `none`), and the `clients`
map from timeout to client, modelled as an association list.  `nextId` is the
allocation counter producing fresh client identities; it is not a field of
the Go struct but the model of heap allocation.  The `sync.RWMutex` serializes
every operation, so the sequential model below is the whole behaviour. -/
structure Pool where
  transport : Option RoundTripper
  tlsConfig : Option TLSConfig
  clients : List (Int × Client)
  nextId : Nat
deriving DecidableEq, Repr

/-- Lookup in the `clients` map: `p.clients[timeout]`, where a missing key
yields `nil` (here `none`); the map never stores a nil client. -/
def findClient : List (Int × Client) → Int → Option Client
  | [], _ => none
  | e :: rest, t => if e.1 = t then some e.2 else findClient rest t

/-- `NewClientPool`: a new, empty pool (empty map, nil transport, nil TLS
config). -/
def NewClientPool : Pool :=
  { transport := none, tlsConfig := none, clients := [], nextId := 0 }

/-- `DefaultClientPool`: the package-level shared pool, `NewClientPool()`. -/
def DefaultClientPool : Pool := NewClientPool

/-- `pool.SetTransport`: under the write lock, store the new transport and
replace `clients` with a freshly made empty map. -/
def SetTransport (p : Pool) (transport : Option RoundTripper) : Pool :=
  { p with transport := transport, clients := [] }

/-- `pool.SetDefaultTLSConfig`: under the write lock, store the new TLS
configuration and replace `clients` with a freshly made empty map. -/
def SetDefaultTLSConfig (p : Pool) (tlsConfig : Option TLSConfig) : Pool :=
  { p with tlsConfig := tlsConfig, clients := [] }

/-- `pool.GetClient`: return the cached client for `timeout` if present;
otherwise build a transport (the custom one if set, else the default
`http.Transport` with proxy-from-environment, the pool's TLS config, a 30s/30s
dialer and a 10s TLS handshake timeout), wrap it with `timeout` into a new
client, cache it and return it.  The Go double-checked locking (read lock,
then re-check under the write lock) collapses to a single check in this
sequential model because the mutex makes each call atomic. -/
def GetClient (p : Pool) (timeout : Int) : Client × Pool :=
  match findClient p.clients timeout with
  | some client => (client, p)
  | none =>
    let transport : RoundTripper :=
      match p.transport with
      | some t => t
      | none =>
        RoundTripper.defaultTransport true p.tlsConfig
          { timeout := 30 * second, keepAlive := 30 * second } (10 * second)
    let client : Client := { id := p.nextId, Transport := transport, Timeout := timeout }
    (client, { p with clients := (timeout, client) :: p.clients, nextId := p.nextId + 1 })

/-- Well-formedness of a pool state, true of every reachable state: every
cached client was allocated before the current counter value and is stored
under its own timeout, and clients cached under distinct timeouts are
distinct heap objects. -/
def WF (p : Pool) : Prop :=
  (∀ e ∈ p.clients, e.2.id < p.nextId ∧ e.2.Timeout = e.1) ∧
  (∀ e1 ∈ p.clients, ∀ e2 ∈ p.clients, e1.1 ≠ e2.1 → e1.2.id ≠ e2.2.id)

instance (p : Pool) : Decidable (WF p) := by
  unfold WF; infer_instance

/-- A successful map lookup comes from a map entry. -/
theorem findClient_mem {m : List (Int × Client)} {t : Int} {c : Client}
    (h : findClient m t = some c) : (t, c) ∈ m := by
  induction m with
  | nil => simp [findClient] at h
  | cons e rest ih =>
    by_cases he : e.1 = t
    · simp only [findClient, he, if_pos] at h
      cases h
      obtain ⟨e1, e2⟩ := e
      simp only at he
      subst he
      exact List.mem_cons_self _ _
    · simp only [findClient, he, if_neg, ite_false] at h
      exact List.mem_cons_of_mem _ (ih h)

/-- `NewClientPool` is well-formed. -/
theorem WF_NewClientPool : WF NewClientPool := by
  constructor <;> simp [NewClientPool]

/-- `SetTransport` preserves well-formedness. -/
theorem WF_SetTransport (p : Pool) (x : Option RoundTripper) :
    WF (SetTransport p x) := by
  constructor <;> simp [SetTransport]

/-- `SetDefaultTLSConfig` preserves well-formedness. -/
theorem WF_SetDefaultTLSConfig (p : Pool) (x : Option TLSConfig) :
    WF (SetDefaultTLSConfig p x) := by
  constructor <;> simp [SetDefaultTLSConfig]

/-- `GetClient` preserves well-formedness. -/
theorem WF_GetClient (p : Pool) (t : Int) (h : WF p) : WF (GetClient p t).2 := by
  obtain ⟨hb, hinj⟩ := h
  unfold GetClient
  cases hf : findClient p.clients t with
  | some c => exact ⟨hb, hinj⟩
  | none =>
    refine ⟨?_, ?_⟩
    · intro e he
      simp only [List.mem_cons] at he
      rcases he with rfl | he
      · exact ⟨Nat.lt_succ_self _, rfl⟩
      · exact ⟨Nat.lt_succ_of_lt (hb e he).1, (hb e he).2⟩
    · intro e1 h1 e2 h2 hne
      simp only [List.mem_cons] at h1 h2
      rcases h1 with rfl | h1 <;> rcases h2 with rfl | h2
      · exact absurd rfl hne
      · exact fun hid => Nat.lt_irrefl _ (hid ▸ (hb e2 h2).1)
      · exact fun hid => Nat.lt_irrefl _ (hid ▸ (hb e1 h1).1)
      · exact hinj e1 h1 e2 h2 hne

/-- On a well-formed pool, the client returned by `GetClient` reports the
requested timeout, whether it was cached or freshly constructed. -/
theorem getClient_Timeout (p : Pool) (t : Int) (hwf : WF p) :
    (GetClient p t).1.Timeout = t := by
  cases hf : findClient p.clients t with
  | some c =>
    have h1 : (GetClient p t).1 = c := by simp [GetClient, hf]
    rw [h1]
    exact (hwf.1 _ (findClient_mem hf)).2
  | none => simp [GetClient, hf]

/-- After `GetClient p t`, the key `t` maps to exactly the returned client. -/
theorem findClient_GetClient (p : Pool) (t : Int) :
    findClient (GetClient p t).2.clients t = some (GetClient p t).1 := by
  cases hf : findClient p.clients t with
  | some c => simp [GetClient, hf]
  | none => simp [GetClient, hf, findClient]

/-- `GetClient p t` leaves every other key of the map unchanged. -/
theorem findClient_GetClient_ne (p : Pool) (t t' : Int) (hne : t' ≠ t) :
    findClient (GetClient p t).2.clients t' = findClient p.clients t' := by
  cases hf : findClient p.clients t with
  | some c => simp [GetClient, hf]
  | none => simp [GetClient, hf, findClient, Ne.symm hne]

/-- `GetClient` never changes the pool's `transport` or `tlsConfig` fields. -/
theorem getClient_config_frame (p : Pool) (t : Int) :
    (GetClient p t).2.transport = p.transport ∧
    (GetClient p t).2.tlsConfig = p.tlsConfig := by
  cases hf : findClient p.clients t with
  | some c => simp [GetClient, hf]
  | none => simp [GetClient, hf]

/-- Claim C1: for every timeout `t`, two consecutive `GetClient t` calls on
the same pool with no intervening `SetTransport` or `SetDefaultTLSConfig`
call return the identical cached client instance, and the second call leaves
the pool state untouched. -/
theorem getClient_cached_identical (p : Pool) (t : Int) :
    GetClient (GetClient p t).2 t = ((GetClient p t).1, (GetClient p t).2) := by
  cases hf : findClient p.clients t with
  | some c => simp [GetClient, hf]
  | none => simp [GetClient, hf, findClient]

/-- Claim C2: `SetTransport x` and `SetDefaultTLSConfig y` each replace the
corresponding configuration field and clear the entire clients map; for any
timeout `t` cached before the call, the next `GetClient t` returns a new
client instance distinct from the pre-change one. -/
theorem set_clears_cache_and_refreshes (p : Pool) (x : Option RoundTripper)
    (y : Option TLSConfig) (t : Int) (c : Client) (hwf : WF p)
    (hc : findClient p.clients t = some c) :
    (SetTransport p x).transport = x ∧ (SetTransport p x).clients = [] ∧
    (SetDefaultTLSConfig p y).tlsConfig = y ∧ (SetDefaultTLSConfig p y).clients = [] ∧
    (GetClient (SetTransport p x) t).1 ≠ c ∧
    (GetClient (SetDefaultTLSConfig p y) t).1 ≠ c := by
  have hid : c.id < p.nextId := (hwf.1 _ (findClient_mem hc)).1
  have hx : (GetClient (SetTransport p x) t).1.id = p.nextId := rfl
  have hy : (GetClient (SetDefaultTLSConfig p y) t).1.id = p.nextId := rfl
  refine ⟨rfl, rfl, rfl, rfl, fun h => ?_, fun h => ?_⟩
  · rw [h] at hx
    omega
  · rw [h] at hy
    omega

/-- Claim C3: for every timeout `t` (including zero and negative durations)
on a well-formed pool, `GetClient t` returns a client whose `Timeout` field
equals `t`; in particular `GetClient 10` on a fresh pool yields `Timeout`
ten nanoseconds. -/
theorem getClient_reports_timeout (p : Pool) (t : Int) (hwf : WF p) :
    (GetClient p t).1.Timeout = t ∧ (GetClient NewClientPool 10).1.Timeout = 10 :=
  ⟨getClient_Timeout p t hwf, rfl⟩

/-- Claim C4: when `GetClient` constructs a client and the pool's transport
is `nil`, the client's transport is the default `http.Transport` with
proxy-from-environment, the pool's current TLS configuration, a dialer with
30-second connect timeout and 30-second keep-alive, and a 10-second TLS
handshake timeout. -/
theorem getClient_builds_default_transport (p : Pool) (t : Int)
    (hnil : p.transport = none) (hmiss : findClient p.clients t = none) :
    (GetClient p t).1.Transport =
      RoundTripper.defaultTransport true p.tlsConfig
        { timeout := 30 * second, keepAlive := 30 * second } (10 * second) := by
  simp [GetClient, hmiss, hnil]

/-- Claim C5: if a non-nil custom transport `T` is set and not replaced,
every client constructed by `GetClient` carries exactly `T` as its
`Transport` field. -/
theorem getClient_reuses_custom_transport (p : Pool) (T : RoundTripper) (t : Int)
    (hset : p.transport = some T) (hmiss : findClient p.clients t = none) :
    (GetClient p t).1.Transport = T := by
  simp [GetClient, hmiss, hset]

/-- Claim C6: when a non-nil custom transport is set, the TLS configuration
does not influence constructed clients: two pools identical except for their
`tlsConfig` field, holding the same custom transport, yield clients with the
same transport and timeout for every `GetClient t` call. -/
theorem tlsConfig_no_influence_with_custom_transport (p1 p2 : Pool)
    (T : RoundTripper) (t : Int) (h1 : p1.transport = some T)
    (h2 : p2.transport = some T) (hcl : p1.clients = p2.clients)
    (hid : p1.nextId = p2.nextId) :
    (GetClient p1 t).1.Transport = (GetClient p2 t).1.Transport ∧
    (GetClient p1 t).1.Timeout = (GetClient p2 t).1.Timeout := by
  cases hf : findClient p1.clients t with
  | some c =>
    have hf2 : findClient p2.clients t = some c := hcl ▸ hf
    simp [GetClient, hf, hf2]
  | none =>
    have hf2 : findClient p2.clients t = none := hcl ▸ hf
    simp [GetClient, hf, hf2, h1, h2, hid]

/-- Claim C7: for distinct timeouts `t1 ≠ t2` on the same well-formed pool,
`GetClient t1` and `GetClient t2` return distinct client instances. -/
theorem distinct_timeouts_distinct_clients (p : Pool) (t1 t2 : Int)
    (hwf : WF p) (hne : t1 ≠ t2) :
    (GetClient (GetClient p t1).2 t2).1 ≠ (GetClient p t1).1 := by
  intro h
  have h1 := getClient_Timeout p t1 hwf
  have h2 := getClient_Timeout (GetClient p t1).2 t2 (WF_GetClient p t1 hwf)
  rw [h] at h2
  exact hne (h1.symm.trans h2)

/-- Claim C8: `GetClient t` never removes or replaces existing cache
entries: every key `t' ≠ t` maps to the same entry as before, and the pool's
`transport` and `tlsConfig` fields are unchanged. -/
theorem getClient_frame (p : Pool) (t t' : Int) (hne : t' ≠ t) :
    findClient (GetClient p t).2.clients t' = findClient p.clients t' ∧
    (GetClient p t).2.transport = p.transport ∧
    (GetClient p t).2.tlsConfig = p.tlsConfig :=
  ⟨findClient_GetClient_ne p t t' hne, (getClient_config_frame p t).1,
    (getClient_config_frame p t).2⟩

/-- Claim C9: every operation is total — `SetTransport` and
`SetDefaultTLSConfig` accept any input including `nil`, and `GetClient`
succeeds for every timeout, caching it under its own key; zero and negative
timeouts are valid distinct cache keys, so after requesting both, both keys
are present in the map. -/
theorem operations_total (p : Pool) (x : Option RoundTripper)
    (y : Option TLSConfig) (t1 t2 : Int) (hne : t1 ≠ t2) :
    (SetTransport p x).transport = x ∧
    (SetDefaultTLSConfig p y).tlsConfig = y ∧
    (∀ t : Int, findClient (GetClient p t).2.clients t = some (GetClient p t).1) ∧
    findClient (GetClient (GetClient p t1).2 t2).2.clients t1 ≠ none ∧
    findClient (GetClient (GetClient p t1).2 t2).2.clients t2 ≠ none := by
  refine ⟨rfl, rfl, fun t => findClient_GetClient p t, ?_, ?_⟩
  · rw [findClient_GetClient_ne _ t2 t1 hne, findClient_GetClient]
    simp
  · rw [findClient_GetClient]
    simp

/-- Claim C10: `SetTransport` modifies only the transport field and the
clients map, leaving `tlsConfig` unchanged; `SetDefaultTLSConfig` modifies
only the `tlsConfig` field and the clients map, leaving `transport`
unchanged. -/
theorem set_frame_conditions (p : Pool) (x : Option RoundTripper)
    (y : Option TLSConfig) :
    (SetTransport p x).tlsConfig = p.tlsConfig ∧
    (SetTransport p x).transport = x ∧ (SetTransport p x).clients = [] ∧
    (SetDefaultTLSConfig p y).transport = p.transport ∧
    (SetDefaultTLSConfig p y).tlsConfig = y ∧
    (SetDefaultTLSConfig p y).clients = [] :=
  ⟨rfl, rfl, rfl, rfl, rfl, rfl⟩

/-- Witness for C2: concrete pool with timeout 5 cached, then each setter. -/
theorem set_clears_cache_and_refreshes_witness :
    (SetTransport (GetClient NewClientPool 5).2 (some (RoundTripper.custom 7))).transport
        = some (RoundTripper.custom 7) ∧
    (SetTransport (GetClient NewClientPool 5).2 (some (RoundTripper.custom 7))).clients
        = [] ∧
    (SetDefaultTLSConfig (GetClient NewClientPool 5).2 (some (TLSConfig.mk 3))).tlsConfig
        = some (TLSConfig.mk 3) ∧
    (SetDefaultTLSConfig (GetClient NewClientPool 5).2 (some (TLSConfig.mk 3))).clients
        = [] ∧
    (GetClient (SetTransport (GetClient NewClientPool 5).2
        (some (RoundTripper.custom 7))) 5).1 ≠ (GetClient NewClientPool 5).1 ∧
    (GetClient (SetDefaultTLSConfig (GetClient NewClientPool 5).2
        (some (TLSConfig.mk 3))) 5).1 ≠ (GetClient NewClientPool 5).1 :=
  set_clears_cache_and_refreshes (GetClient NewClientPool 5).2
    (some (RoundTripper.custom 7)) (some (TLSConfig.mk 3)) 5
    (GetClient NewClientPool 5).1 (by decide) (by decide)

/-- Witness for C3: a fresh pool at the negative timeout minus three. -/
theorem getClient_reports_timeout_witness :
    (GetClient NewClientPool (-3)).1.Timeout = -3 ∧
    (GetClient NewClientPool 10).1.Timeout = 10 :=
  getClient_reports_timeout NewClientPool (-3) (by decide)

/-- Witness for C4: a fresh pool (nil transport) at timeout 1. -/
theorem getClient_builds_default_transport_witness :
    (GetClient NewClientPool 1).1.Transport =
      RoundTripper.defaultTransport true NewClientPool.tlsConfig
        { timeout := 30 * second, keepAlive := 30 * second } (10 * second) :=
  getClient_builds_default_transport NewClientPool 1 (by decide) (by decide)

/-- Witness for C5: custom transport 7 set, then `GetClient 2`. -/
theorem getClient_reuses_custom_transport_witness :
    (GetClient (SetTransport NewClientPool (some (RoundTripper.custom 7))) 2).1.Transport
        = RoundTripper.custom 7 :=
  getClient_reuses_custom_transport
    (SetTransport NewClientPool (some (RoundTripper.custom 7)))
    (RoundTripper.custom 7) 2 (by decide) (by decide)

/-- Witness for C6: two pools with custom transport 7, one with TLS config 1
set and one with none, compared at timeout 4. -/
theorem tlsConfig_no_influence_witness :
    (GetClient (SetDefaultTLSConfig (SetTransport NewClientPool
        (some (RoundTripper.custom 7))) (some (TLSConfig.mk 1))) 4).1.Transport
      = (GetClient (SetTransport NewClientPool (some (RoundTripper.custom 7))) 4).1.Transport ∧
    (GetClient (SetDefaultTLSConfig (SetTransport NewClientPool
        (some (RoundTripper.custom 7))) (some (TLSConfig.mk 1))) 4).1.Timeout
      = (GetClient (SetTransport NewClientPool (some (RoundTripper.custom 7))) 4).1.Timeout :=
  tlsConfig_no_influence_with_custom_transport
    (SetDefaultTLSConfig (SetTransport NewClientPool (some (RoundTripper.custom 7)))
      (some (TLSConfig.mk 1)))
    (SetTransport NewClientPool (some (RoundTripper.custom 7)))
    (RoundTripper.custom 7) 4 (by decide) (by decide) (by decide) (by decide)

/-- Witness for C7: timeouts 0 and 1 on a fresh pool. -/
theorem distinct_timeouts_distinct_clients_witness :
    (GetClient (GetClient NewClientPool 0).2 1).1 ≠ (GetClient NewClientPool 0).1 :=
  distinct_timeouts_distinct_clients NewClientPool 0 1 (by decide) (by decide)

/-- Witness for C8: `GetClient 0` on a fresh pool leaves key 1 and the
configuration fields unchanged. -/
theorem getClient_frame_witness :
    findClient (GetClient NewClientPool 0).2.clients 1
        = findClient NewClientPool.clients 1 ∧
    (GetClient NewClientPool 0).2.transport = NewClientPool.transport ∧
    (GetClient NewClientPool 0).2.tlsConfig = NewClientPool.tlsConfig :=
  getClient_frame NewClientPool 0 1 (by decide)

/-- Witness for C9: nil setter arguments, and the distinct keys zero and
minus one both cached after two calls. -/
theorem operations_total_witness :
    (SetTransport NewClientPool none).transport = none ∧
    (SetDefaultTLSConfig NewClientPool none).tlsConfig = none ∧
    findClient (GetClient NewClientPool 0).2.clients 0
        = some (GetClient NewClientPool 0).1 ∧
    findClient (GetClient (GetClient NewClientPool 0).2 (-1)).2.clients 0 ≠ none ∧
    findClient (GetClient (GetClient NewClientPool 0).2 (-1)).2.clients (-1) ≠ none := by
  obtain ⟨a, b, c, d, e⟩ := operations_total NewClientPool none none 0 (-1) (by decide)
  exact ⟨a, b, c 0, d, e⟩

end UpdaterHttp
